import Mathlib

/-!
Verification development for the decision core of an options-trading bot
(five Python modules: market_regime_v2, confidence_v2, entry_logic_v2,
exit_logic_v2, cooldown_v2).  Python floats are modelled as rationals,
optional values as `Option`, and the one stateful component
(`CooldownManager`) as explicit state passing.  Diagnostic free-text
fields (the `notes` string of `ConfidenceBreakdown`, the formatted
dictionary view of `RegimeInfo`) are presentation-only and are not part
of the decision logic; they are omitted from the records.
-/

namespace BotV4

/-! ## cooldown_v2.py -/

/-- Reason a cooldown was activated (single-variant enum in the source). -/
inductive CooldownReason
  | EXIT
deriving DecidableEq, Repr

/-- Snapshot record returned by `CooldownManager.get_state`. -/
structure CooldownState where
  active : Bool
  candles_remaining : ℤ
  reason : Option CooldownReason
deriving DecidableEq, Repr

/-- The mutable fields of a `CooldownManager` together with its
construction-time `cooldown_duration` (Python attribute of the same name). -/
structure CooldownManager where
  cooldown_duration : ℤ
  remaining : ℤ
  reason : Option CooldownReason
deriving DecidableEq, Repr

/-- Constructor `CooldownManager(cooldown_candles=...)`: duration stored,
counter starts at 0 with no reason. -/
def CooldownManager.init (cooldown_candles : ℤ) : CooldownManager :=
  ⟨cooldown_candles, 0, none⟩

/-- Method `reset`: force-clears the counter and the reason. -/
def CooldownManager.reset (s : CooldownManager) : CooldownManager :=
  ⟨s.cooldown_duration, 0, none⟩

/-- Method `activate(reason, cooldown_candles=None)`: the effective duration
is the explicit argument when given, else the constructed default;
`remaining = max(0, duration)` and the reason is recorded. -/
def CooldownManager.activate (s : CooldownManager) (reason : CooldownReason)
    (cooldown_candles : Option ℤ) : CooldownManager :=
  let duration := cooldown_candles.getD s.cooldown_duration
  ⟨s.cooldown_duration, max 0 duration, some reason⟩

/-- Method `advance`: decrements only when the counter is positive, and when
the decrement reaches (or passes) zero the counter is pinned to 0 and the
reason cleared. -/
def CooldownManager.advance (s : CooldownManager) : CooldownManager :=
  if 0 < s.remaining then
    let r := s.remaining - 1
    if r ≤ 0 then ⟨s.cooldown_duration, 0, none⟩
    else ⟨s.cooldown_duration, r, s.reason⟩
  else s

/-- Method `can_enter`: entries allowed exactly when the counter is ≤ 0. -/
def CooldownManager.can_enter (s : CooldownManager) : Bool :=
  decide (s.remaining ≤ 0)

/-- Method `get_state`: snapshot with `active = remaining > 0`. -/
def CooldownManager.get_state (s : CooldownManager) : CooldownState :=
  ⟨decide (0 < s.remaining), s.remaining, s.reason⟩

/-- One externally visible operation on a `CooldownManager`. -/
inductive CdOp
  | activate (reason : CooldownReason) (cooldown_candles : Option ℤ)
  | advance
  | reset
deriving DecidableEq, Repr

/-- Apply one operation to the manager state. -/
def applyOp (s : CooldownManager) : CdOp → CooldownManager
  | .activate r d => s.activate r d
  | .advance => s.advance
  | .reset => s.reset

/-- Run a sequence of operations from a given state. -/
def runOps (s : CooldownManager) (ops : List CdOp) : CooldownManager :=
  ops.foldl applyOp s

/-- An operation has a positive effective duration: an explicit activate
duration must be positive, a defaulted activate relies on the constructed
duration `d` being positive; advance and reset are unconstrained. -/
def posDurationOp (d : ℤ) : CdOp → Bool
  | .activate _ (some v) => decide (0 < v)
  | .activate _ none => decide (0 < d)
  | .advance => true
  | .reset => true

/-! ## confidence_v2.py -/

/-- Record returned by `calculate_entry_confidence` (the diagnostic `notes`
string is presentation-only and omitted). -/
structure ConfidenceBreakdown where
  total : ℚ
  st_strength : ℚ
  candle_body_strength : ℚ
  macd_momentum : ℚ
  volatility_expansion : ℚ
deriving DecidableEq, Repr

/-- Class constant `MIN_ENTRY_CONFIDENCE`. -/
def MIN_ENTRY_CONFIDENCE : ℚ := 65

/-- Class constant `MIN_RUNTIME_CONFIDENCE`. -/
def MIN_RUNTIME_CONFIDENCE : ℚ := 40

/-- Class constant `_ST_STRONG_THRESHOLD_PCT` (0.25). -/
def ST_STRONG_THRESHOLD_PCT : ℚ := 1 / 4

/-- Class constant `_BODY_STRONG_THRESHOLD_PCT`. -/
def BODY_STRONG_THRESHOLD_PCT : ℚ := 60

/-- Class constant `_VOL_EXPANSION_WINDOW`. -/
def VOL_EXPANSION_WINDOW : ℕ := 14

/-- SuperTrend strength factor: 30 points when the ST distance strictly
exceeds 0.25%. -/
def stStrengthScore (supertrend_distance_pct : ℚ) : ℚ :=
  if ST_STRONG_THRESHOLD_PCT < supertrend_distance_pct then 30 else 0

/-- Candle body percentage `|close-open| / (high-low) * 100`, defined as 0
when the candle range `high - low` is not positive. -/
def bodyPct (candle_open candle_high candle_low candle_close : ℚ) : ℚ :=
  if 0 < candle_high - candle_low then
    |candle_close - candle_open| / (candle_high - candle_low) * 100
  else 0

/-- Candle body strength factor: 20 points when the body percentage is at
least 60. -/
def bodyStrengthScore (candle_open candle_high candle_low candle_close : ℚ) : ℚ :=
  if BODY_STRONG_THRESHOLD_PCT ≤ bodyPct candle_open candle_high candle_low candle_close
  then 20 else 0

/-- MACD momentum factor: tiered on the absolute histogram magnitude. -/
def macdMomentumScore (macd_histogram : Option ℚ) : ℚ :=
  match macd_histogram with
  | none => 0
  | some m =>
    if (3 : ℚ) / 2 ≤ |m| then 30
    else if (1 : ℚ) ≤ |m| then 25
    else if (3 : ℚ) / 4 ≤ |m| then 20
    else if (1 : ℚ) / 2 ≤ |m| then 15
    else 0

/-- Volatility expansion condition: the candle range is positive, at least
3 prior ranges are supplied, and the current range strictly exceeds the
positive average of the most recent (≤ 14) of them.  A `none` range list
behaves as the empty list (Python `recent_ranges or []`). -/
def volExpansionCond (candle_range : ℚ) (recent_ranges : Option (List ℚ)) : Bool :=
  if 0 < candle_range then
    let ranges := recent_ranges.getD []
    if 3 ≤ ranges.length then
      let window := ranges.drop (ranges.length - VOL_EXPANSION_WINDOW)
      let avg_range : ℚ :=
        if window.length = 0 then 0 else window.sum / (window.length : ℚ)
      decide (0 < avg_range ∧ avg_range < candle_range)
    else false
  else false

/-- Volatility expansion factor: 20 points when the expansion condition
holds. -/
def volExpansionScore (candle_range : ℚ) (recent_ranges : Option (List ℚ)) : ℚ :=
  if volExpansionCond candle_range recent_ranges then 20 else 0

/-- Method `calculate_entry_confidence`: additive scoring over the four
factors; the total is the clamped sum. -/
def calculate_entry_confidence (supertrend_distance_pct candle_open candle_high
    candle_low candle_close : ℚ) (macd_histogram : Option ℚ)
    (recent_ranges : Option (List ℚ)) : ConfidenceBreakdown :=
  let st_strength := stStrengthScore supertrend_distance_pct
  let candle_body_strength :=
    bodyStrengthScore candle_open candle_high candle_low candle_close
  let macd_momentum := macdMomentumScore macd_histogram
  let volatility_expansion :=
    volExpansionScore (candle_high - candle_low) recent_ranges
  let total := st_strength + candle_body_strength + macd_momentum + volatility_expansion
  ⟨max 0 (min 100 total), st_strength, candle_body_strength, macd_momentum,
    volatility_expansion⟩

/-- Runtime decay condition WEAK_BODY: body percentage known and below 30. -/
def bodyWeak (candle_body_pct : Option ℚ) : Bool :=
  match candle_body_pct with
  | some b => decide (b < 30)
  | none => false

/-- Runtime decay condition MACD_SHRINK: both histograms known and the
current magnitude strictly below the previous one. -/
def macdShrink (macd_histogram prev_macd_histogram : Option ℚ) : Bool :=
  match macd_histogram, prev_macd_histogram with
  | some m, some p => decide (|m| < |p|)
  | _, _ => false

/-- Runtime decay condition TIME_DECAY: candles held strictly above the
decay window. -/
def timeDecayHit (candles_held decay_after_candles : ℤ) : Bool :=
  decide (decay_after_candles < candles_held)

/-- Runtime boost condition CONTINUATION: body percentage known and at
least 60. -/
def continuationStrong (candle_body_pct : Option ℚ) : Bool :=
  match candle_body_pct with
  | some b => decide (60 ≤ b)
  | none => false

/-- Separator used to join runtime reason tags (Python `"+".join`). -/
def reasonSep : String := "+"

/-- Join the applied-rule tags, or report NO_CHANGE when none applied. -/
def joinReasons (reasons : List String) : String :=
  match reasons with
  | [] => "NO_CHANGE"
  | _ => String.intercalate reasonSep reasons

/-- Method `calculate_runtime_confidence`: starting from the previous
confidence, the four rules fire independently and cumulatively in source
order, the result is clamped to [0,100], and the reason string joins the
tags of the rules that fired. -/
def calculate_runtime_confidence (previous_confidence : ℚ)
    (candle_body_pct macd_histogram prev_macd_histogram : Option ℚ)
    (candles_held decay_after_candles : ℤ) : ℚ × String :=
  let s1 : ℚ × List String :=
    if bodyWeak candle_body_pct then (previous_confidence - 10, ["WEAK_BODY"])
    else (previous_confidence, [])
  let s2 : ℚ × List String :=
    if macdShrink macd_histogram prev_macd_histogram then
      (s1.1 - 10, s1.2 ++ ["MACD_SHRINK"])
    else s1
  let s3 : ℚ × List String :=
    if timeDecayHit candles_held decay_after_candles then
      (s2.1 - 5, s2.2 ++ ["TIME_DECAY"])
    else s2
  let s4 : ℚ × List String :=
    if continuationStrong candle_body_pct then
      (s3.1 + 5, s3.2 ++ ["CONTINUATION"])
    else s3
  (max 0 (min 100 s4.1), joinReasons s4.2)

/-! ## market_regime_v2.py -/

/-- Market regime classification. -/
inductive MarketRegime
  | SIDEWAYS
  | TRENDING
deriving DecidableEq, Repr

/-- Record describing which classification method ran and with which inputs
and thresholds (the Python code returns it as a dictionary view). -/
structure RegimeInfo where
  method : String
  adx : Option ℚ
  adx_threshold : ℚ
  st_distance_pct : Option ℚ
  st_distance_threshold_pct : ℚ
deriving DecidableEq, Repr

/-- Class constant `DEFAULT_ST_DISTANCE_SIDEWAYS_THRESHOLD_PCT` (0.15). -/
def DEFAULT_ST_DISTANCE_SIDEWAYS_THRESHOLD_PCT : ℚ := 3 / 20

/-- Construction-time configuration of `MarketRegimeDetector`. -/
structure MarketRegimeDetector where
  use_adx : Bool
  adx_threshold : ℚ
  st_distance_sideways_threshold_pct : ℚ
deriving DecidableEq, Repr

/-- Detector built with all constructor defaults
(`use_adx=False`, `adx_threshold=20.0`, threshold 0.15). -/
def MarketRegimeDetector.default : MarketRegimeDetector :=
  ⟨false, 20, DEFAULT_ST_DISTANCE_SIDEWAYS_THRESHOLD_PCT⟩

/-- ST distance percentage `|price - supertrend| / price * 100`; undefined
when the price is absent or not positive (Python truthiness check
`if current_price and current_price > 0`). -/
def stDistancePct (current_price : Option ℚ) (supertrend_value : ℚ) : Option ℚ :=
  match current_price with
  | some p => if 0 < p then some (|p - supertrend_value| / p * 100) else none
  | none => none

/-- Method `detect`: the ADX method runs exactly when the flag is set and an
ADX value is supplied; otherwise the ST-distance method runs, classifying
SIDEWAYS whenever the distance is undefined.  (The source also guards
`supertrend_value is not None`, vacuous under the typed signature.) -/
def detect (self : MarketRegimeDetector) (current_price : Option ℚ)
    (supertrend_value : ℚ) (adx : Option ℚ) : MarketRegime × RegimeInfo :=
  let dist := stDistancePct current_price supertrend_value
  match self.use_adx, adx with
  | true, some a =>
    let regime := if a < self.adx_threshold then MarketRegime.SIDEWAYS
                  else MarketRegime.TRENDING
    (regime, ⟨"ADX", some a, self.adx_threshold, dist,
      self.st_distance_sideways_threshold_pct⟩)
  | _, _ =>
    let regime :=
      match dist with
      | none => MarketRegime.SIDEWAYS
      | some d => if d < self.st_distance_sideways_threshold_pct
                  then MarketRegime.SIDEWAYS else MarketRegime.TRENDING
    (regime, ⟨"ST_DISTANCE", adx, self.adx_threshold, dist,
      self.st_distance_sideways_threshold_pct⟩)

/-! ## entry_logic_v2.py -/

/-- Direction of a qualifying SuperTrend flip. -/
inductive EntryDirection
  | BULLISH
  | BEARISH
deriving DecidableEq, Repr

/-- Result record of `check_entry`. -/
structure EntryDecision where
  should_enter : Bool
  direction : Option EntryDirection
  reason : String
deriving DecidableEq, Repr

/-- Class constant `MACD_HIST_MIN` (0.5). -/
def MACD_HIST_MIN : ℚ := 1 / 2

/-- Direction determined by a SuperTrend flip pair: only (-1 → 1) and
(1 → -1) are valid. -/
def flipDirection (prev st : ℤ) : Option EntryDirection :=
  if prev = -1 ∧ st = 1 then some EntryDirection.BULLISH
  else if prev = 1 ∧ st = -1 then some EntryDirection.BEARISH
  else none

/-- Shared tail of `check_entry` after price confirmation: the MACD momentum
gate followed by the confidence gate, then the positive decision. -/
def entryTail (direction : EntryDirection) (macd_histogram : Option ℚ)
    (entry_confidence min_entry_confidence : ℚ) : EntryDecision :=
  match macd_histogram with
  | none => ⟨false, none, "MACD_HIST_TOO_SMALL"⟩
  | some m =>
    if |m| < MACD_HIST_MIN then ⟨false, none, "MACD_HIST_TOO_SMALL"⟩
    else if entry_confidence < min_entry_confidence then
      ⟨false, none, "LOW_ENTRY_CONFIDENCE"⟩
    else ⟨true, some direction, "OK"⟩

/-- Method `check_entry`: the ordered short-circuiting gate chain of the
source, first failing gate decides the reason. -/
def check_entry (market_regime_is_trending : Bool) (st_direction : ℤ)
    (prev_st_direction : Option ℤ) (supertrend_value candle_close : ℚ)
    (macd_histogram : Option ℚ) (entry_confidence min_entry_confidence : ℚ) :
    EntryDecision :=
  if market_regime_is_trending = false then ⟨false, none, "SIDEWAYS_REGIME"⟩
  else
    match prev_st_direction with
    | none => ⟨false, none, "NO_PREV_ST"⟩
    | some prev =>
      if st_direction = prev then ⟨false, none, "NO_ST_FLIP"⟩
      else
        match flipDirection prev st_direction with
        | none => ⟨false, none, "INVALID_ST_FLIP"⟩
        | some EntryDirection.BULLISH =>
          if ¬ (supertrend_value < candle_close) then
            ⟨false, none, "PRICE_NOT_ABOVE_ST"⟩
          else entryTail EntryDirection.BULLISH macd_histogram
            entry_confidence min_entry_confidence
        | some EntryDirection.BEARISH =>
          if ¬ (candle_close < supertrend_value) then
            ⟨false, none, "PRICE_NOT_BELOW_ST"⟩
          else entryTail EntryDirection.BEARISH macd_histogram
            entry_confidence min_entry_confidence

/-- Price confirmation gate as worded by the spec: close strictly above the
SuperTrend line for a bullish flip, strictly below for a bearish flip
(vacuously true when no valid flip direction exists, since the earlier
gate already failed). -/
def priceConfirmed (dir : Option EntryDirection) (supertrend_value candle_close : ℚ) :
    Bool :=
  match dir with
  | some EntryDirection.BULLISH => decide (supertrend_value < candle_close)
  | some EntryDirection.BEARISH => decide (candle_close < supertrend_value)
  | none => true

/-- Reason code reported when the price confirmation gate fails. -/
def priceFailReason (dir : Option EntryDirection) : String :=
  match dir with
  | some EntryDirection.BEARISH => "PRICE_NOT_BELOW_ST"
  | _ => "PRICE_NOT_ABOVE_ST"

/-- MACD momentum gate as worded by the spec: histogram present and
magnitude at least 0.5. -/
def macdGate (macd_histogram : Option ℚ) : Bool :=
  match macd_histogram with
  | some m => decide (MACD_HIST_MIN ≤ |m|)
  | none => false

/-- Specification-side rendering of `check_entry`, written from the spec
wording: an ordered list of seven (gate, reason-code) pairs; the first
failing gate determines the negative decision, and only a full pass yields
should_enter with the flip direction and reason OK. -/
def check_entrySpec (market_regime_is_trending : Bool) (st_direction : ℤ)
    (prev_st_direction : Option ℤ) (supertrend_value candle_close : ℚ)
    (macd_histogram : Option ℚ) (entry_confidence min_entry_confidence : ℚ) :
    EntryDecision :=
  let dir : Option EntryDirection :=
    match prev_st_direction with
    | some p => flipDirection p st_direction
    | none => none
  let gates : List (Bool × String) :=
    [ (market_regime_is_trending, "SIDEWAYS_REGIME"),
      (prev_st_direction.isSome, "NO_PREV_ST"),
      ((match prev_st_direction with
        | some p => decide (st_direction ≠ p)
        | none => true), "NO_ST_FLIP"),
      (dir.isSome, "INVALID_ST_FLIP"),
      (priceConfirmed dir supertrend_value candle_close, priceFailReason dir),
      (macdGate macd_histogram, "MACD_HIST_TOO_SMALL"),
      (decide (min_entry_confidence ≤ entry_confidence), "LOW_ENTRY_CONFIDENCE") ]
  match gates.find? (fun g => !g.1) with
  | some g => ⟨false, none, g.2⟩
  | none => ⟨true, dir, "OK"⟩

/-! ## exit_logic_v2.py -/

/-- Exit reason enumeration. -/
inductive ExitReason
  | SL_HIT
  | TSL_HIT
  | CONFIDENCE_DROP
  | ST_REVERSAL
  | EOD_EXIT
deriving DecidableEq, Repr

/-- Result record of `check_exit`. -/
structure ExitSignal where
  should_exit : Bool
  reason : Option ExitReason
deriving DecidableEq, Repr

/-- Wall-clock time of day, hour and minute (the EOD cutoff has zero
seconds, so the second/microsecond components of Python `datetime.time`
cannot affect the one comparison the code performs). -/
structure TimeHM where
  hour : ℕ
  minute : ℕ
deriving DecidableEq, Repr

/-- Lexicographic `a >= b` on (hour, minute), matching Python `time`
ordering for times with equal finer components. -/
def TimeHM.ge (a b : TimeHM) : Bool :=
  decide (b.hour < a.hour ∨ (a.hour = b.hour ∧ b.minute ≤ a.minute))

/-- Class constant `EOD_CUTOFF` (15:20 IST). -/
def EOD_CUTOFF : TimeHM := ⟨15, 20⟩

/-- Python `float(current_option_ltp or 0.0)`: a missing LTP becomes 0, and
a zero LTP is falsy and also becomes 0, so the result is `getD 0`. -/
def ltpOf (current_option_ltp : Option ℚ) : ℚ :=
  current_option_ltp.getD 0

/-- Stop-loss trigger shared by the hard and trailing rules: the level is
set, the LTP is positive, and the LTP is at or below the level. -/
def slTriggered (ltp : ℚ) (sl : Option ℚ) : Bool :=
  match sl with
  | some s => decide (0 < ltp) && decide (ltp ≤ s)
  | none => false

/-- Character-wise upper-casing of a string (Python `str.upper` for the
ASCII position-type strings used here). -/
def upperAscii (s : String) : String :=
  String.mk (s.data.map Char.toUpper)

/-- SuperTrend reversal against the held position: directions known and
different, and the flip opposes the (upper-cased) position type —
CE with 1 → -1 or PE with -1 → 1. -/
def stReversalAgainst (position_type : String)
    (st_direction prev_st_direction : Option ℤ) : Bool :=
  match st_direction, prev_st_direction with
  | some s, some p =>
    if s ≠ p then
      let pt := upperAscii position_type
      (decide (pt = "CE") && decide (p = 1) && decide (s = -1)) ||
      (decide (pt = "PE") && decide (p = -1) && decide (s = 1))
    else false
  | _, _ => false

/-- EOD safety condition: bypass not set and current time at or past the
cutoff. -/
def eodHit (current_time_ist : TimeHM) (bypass_eod_exit : Bool) : Bool :=
  !bypass_eod_exit && TimeHM.ge current_time_ist EOD_CUTOFF

/-- Method `check_exit`: no-op without an open position, else the five
conditions of the source in order, returning on the first hit. -/
def check_exit (is_open_position : Bool) (current_option_ltp : Option ℚ)
    (hard_sl trailing_sl : Option ℚ)
    (runtime_confidence min_runtime_confidence : ℚ)
    (st_direction prev_st_direction : Option ℤ) (position_type : String)
    (current_time_ist : TimeHM) (bypass_eod_exit : Bool) : ExitSignal :=
  if is_open_position = false then ⟨false, none⟩
  else
    let ltp := ltpOf current_option_ltp
    if slTriggered ltp hard_sl then ⟨true, some ExitReason.SL_HIT⟩
    else if slTriggered ltp trailing_sl then ⟨true, some ExitReason.TSL_HIT⟩
    else if runtime_confidence ≤ min_runtime_confidence then
      ⟨true, some ExitReason.CONFIDENCE_DROP⟩
    else if stReversalAgainst position_type st_direction prev_st_direction then
      ⟨true, some ExitReason.ST_REVERSAL⟩
    else if eodHit current_time_ist bypass_eod_exit then
      ⟨true, some ExitReason.EOD_EXIT⟩
    else ⟨false, none⟩

/-- The five exit conditions in the spec's strict descending priority
order, paired with their reasons. -/
def exitConds (current_option_ltp : Option ℚ) (hard_sl trailing_sl : Option ℚ)
    (runtime_confidence min_runtime_confidence : ℚ)
    (st_direction prev_st_direction : Option ℤ) (position_type : String)
    (current_time_ist : TimeHM) (bypass_eod_exit : Bool) :
    List (Bool × ExitReason) :=
  let ltp := ltpOf current_option_ltp
  [ (slTriggered ltp hard_sl, ExitReason.SL_HIT),
    (slTriggered ltp trailing_sl, ExitReason.TSL_HIT),
    (decide (runtime_confidence ≤ min_runtime_confidence),
      ExitReason.CONFIDENCE_DROP),
    (stReversalAgainst position_type st_direction prev_st_direction,
      ExitReason.ST_REVERSAL),
    (eodHit current_time_ist bypass_eod_exit, ExitReason.EOD_EXIT) ]

/-- Specification-side rendering of `check_exit`: return on the first
matching condition of the priority list; conditions are never combined. -/
def check_exitSpec (is_open_position : Bool) (current_option_ltp : Option ℚ)
    (hard_sl trailing_sl : Option ℚ)
    (runtime_confidence min_runtime_confidence : ℚ)
    (st_direction prev_st_direction : Option ℤ) (position_type : String)
    (current_time_ist : TimeHM) (bypass_eod_exit : Bool) : ExitSignal :=
  if is_open_position = false then ⟨false, none⟩
  else
    match (exitConds current_option_ltp hard_sl trailing_sl
        runtime_confidence min_runtime_confidence st_direction
        prev_st_direction position_type current_time_ist
        bypass_eod_exit).find? (fun c => c.1) with
    | some c => ⟨true, some c.2⟩
    | none => ⟨false, none⟩

/-- The lower-priority tail of `check_exit` (conditions 3–5 only:
confidence drop, ST reversal, EOD cutoff), used to state that the
stop-loss rules are skipped when the LTP is unusable. -/
def check_exitLower (runtime_confidence min_runtime_confidence : ℚ)
    (st_direction prev_st_direction : Option ℤ) (position_type : String)
    (current_time_ist : TimeHM) (bypass_eod_exit : Bool) : ExitSignal :=
  if runtime_confidence ≤ min_runtime_confidence then
    ⟨true, some ExitReason.CONFIDENCE_DROP⟩
  else if stReversalAgainst position_type st_direction prev_st_direction then
    ⟨true, some ExitReason.ST_REVERSAL⟩
  else if eodHit current_time_ist bypass_eod_exit then
    ⟨true, some ExitReason.EOD_EXIT⟩
  else ⟨false, none⟩

/-! ## Specification-side rendering of the runtime confidence update -/

/-- The four runtime adjustment rules of the spec, in its fixed order, each
as a (tag, delta) pair present exactly when its condition holds. -/
def runtimeRules (candle_body_pct macd_histogram prev_macd_histogram : Option ℚ)
    (candles_held decay_after_candles : ℤ) : List (String × ℚ) :=
  (if bodyWeak candle_body_pct then [("WEAK_BODY", -10)] else []) ++
  (if macdShrink macd_histogram prev_macd_histogram then
    [("MACD_SHRINK", -10)] else []) ++
  (if timeDecayHit candles_held decay_after_candles then
    [("TIME_DECAY", -5)] else []) ++
  (if continuationStrong candle_body_pct then [("CONTINUATION", 5)] else [])

/-- Total adjustment applied by the four runtime rules. -/
def runtimeDelta (candle_body_pct macd_histogram prev_macd_histogram : Option ℚ)
    (candles_held decay_after_candles : ℤ) : ℚ :=
  (if bodyWeak candle_body_pct then -10 else 0) +
  (if macdShrink macd_histogram prev_macd_histogram then -10 else 0) +
  (if timeDecayHit candles_held decay_after_candles then -5 else 0) +
  (if continuationStrong candle_body_pct then 5 else 0)

/-- Specification-side rendering of `calculate_runtime_confidence`: the
applicable rules are applied independently and cumulatively (their deltas
summed onto the previous confidence), the result clamped to [0,100], and
the reason string is the applied tags joined by the separator, or
NO_CHANGE when none applied. -/
def calculate_runtime_confidenceSpec (previous_confidence : ℚ)
    (candle_body_pct macd_histogram prev_macd_histogram : Option ℚ)
    (candles_held decay_after_candles : ℤ) : ℚ × String :=
  let rules := runtimeRules candle_body_pct macd_histogram prev_macd_histogram
    candles_held decay_after_candles
  (max 0 (min 100 (previous_confidence + (rules.map Prod.snd).sum)),
    joinReasons (rules.map Prod.fst))

/-! ## Cooldown lemmas -/

theorem advance_of_nonpos (s : CooldownManager) (h : s.remaining ≤ 0) :
    s.advance = s := by
  simp only [CooldownManager.advance]
  rw [if_neg (by omega)]

theorem advance_of_eq_one (s : CooldownManager) (h : s.remaining = 1) :
    s.advance = ⟨s.cooldown_duration, 0, none⟩ := by
  simp only [CooldownManager.advance]
  rw [if_pos (by omega), if_pos (by omega)]

theorem advance_of_one_lt (s : CooldownManager) (h : 1 < s.remaining) :
    s.advance = ⟨s.cooldown_duration, s.remaining - 1, s.reason⟩ := by
  simp only [CooldownManager.advance]
  rw [if_pos (by omega), if_neg (by omega)]

theorem iterate_advance_of_lt (k : ℕ) :
    ∀ s : CooldownManager, (k : ℤ) < s.remaining →
      CooldownManager.advance^[k] s =
        ⟨s.cooldown_duration, s.remaining - k, s.reason⟩ := by
  induction k with
  | zero => intro s _; simp
  | succ k ih =>
    intro s h
    rw [Function.iterate_succ_apply, advance_of_one_lt s (by push_cast at h; omega),
      ih _ (by show (k : ℤ) < s.remaining - 1; push_cast at h; omega)]
    push_cast
    congr 1
    ring

theorem iterate_advance_to_zero (n : ℕ) (hn : 1 ≤ n) (s : CooldownManager)
    (h : s.remaining = (n : ℤ)) :
    CooldownManager.advance^[n] s = ⟨s.cooldown_duration, 0, none⟩ := by
  obtain ⟨m, rfl⟩ : ∃ m, n = m + 1 := ⟨n - 1, by omega⟩
  rw [Function.iterate_succ_apply', iterate_advance_of_lt m s (by rw [h]; push_cast; omega)]
  exact advance_of_eq_one _ (by show s.remaining - (m : ℤ) = 1; rw [h]; push_cast; ring)

theorem applyOp_duration (s : CooldownManager) (op : CdOp) :
    (applyOp s op).cooldown_duration = s.cooldown_duration := by
  cases op with
  | activate r c => rfl
  | advance =>
    simp only [applyOp, CooldownManager.advance]
    split_ifs <;> rfl
  | reset => rfl

theorem applyOp_remaining_nonneg (s : CooldownManager) (op : CdOp)
    (h : 0 ≤ s.remaining) : 0 ≤ (applyOp s op).remaining := by
  cases op with
  | activate r c =>
    simp only [applyOp, CooldownManager.activate]
    exact le_max_left _ _
  | advance =>
    simp only [applyOp, CooldownManager.advance]
    split_ifs with h1 h2
    · exact le_refl 0
    · show (0 : ℤ) ≤ s.remaining - 1
      omega
    · exact h
  | reset => simp [applyOp, CooldownManager.reset]

theorem applyOp_zero_reason (d : ℤ) (s : CooldownManager) (op : CdOp)
    (hdur : s.cooldown_duration = d) (hop : posDurationOp d op = true)
    (hz : s.remaining = 0 → s.reason = none) :
    (applyOp s op).remaining = 0 → (applyOp s op).reason = none := by
  cases op with
  | activate r c =>
    cases c with
    | none =>
      simp only [applyOp, CooldownManager.activate, posDurationOp,
        decide_eq_true_eq, Option.getD_none] at hop ⊢
      intro h0
      rw [hdur] at h0
      omega
    | some v =>
      simp only [applyOp, CooldownManager.activate, posDurationOp,
        decide_eq_true_eq, Option.getD_some] at hop ⊢
      intro h0
      omega
  | advance =>
    simp only [applyOp, CooldownManager.advance]
    split_ifs with h1 h2
    · intro _; rfl
    · intro h0; simp at h0; omega
    · exact hz
  | reset => intro _; rfl

theorem runOps_remaining_nonneg (ops : List CdOp) :
    ∀ s : CooldownManager, 0 ≤ s.remaining → 0 ≤ (runOps s ops).remaining := by
  induction ops with
  | nil => intro s h; exact h
  | cons op ops ih =>
    intro s h
    exact ih (applyOp s op) (applyOp_remaining_nonneg s op h)

theorem runOps_zero_reason (d : ℤ) (ops : List CdOp) :
    ∀ s : CooldownManager, (∀ op ∈ ops, posDurationOp d op = true) →
      s.cooldown_duration = d → (s.remaining = 0 → s.reason = none) →
      ((runOps s ops).remaining = 0 → (runOps s ops).reason = none) := by
  induction ops with
  | nil => intro s _ _ hz; exact hz
  | cons op ops ih =>
    intro s hops hdur hz
    exact ih (applyOp s op) (fun o ho => hops o (List.mem_cons_of_mem _ ho))
      ((applyOp_duration s op).trans hdur)
      (applyOp_zero_reason d s op hdur (hops op (List.mem_cons_self op ops)) hz)

/-- Claim C3 counterexample: the state reached from a freshly constructed
manager by the single call `activate(reason=EXIT, cooldown_candles=0)` has
`candles_remaining = 0` while its reason is still set, refuting the claim
that every reachable state with a zero counter has a cleared reason. -/
theorem C3_cooldown_zero_reason_counterexample :
    (runOps (CooldownManager.init 3)
      [CdOp.activate CooldownReason.EXIT (some 0)]).remaining = 0 ∧
    (runOps (CooldownManager.init 3)
      [CdOp.activate CooldownReason.EXIT (some 0)]).reason ≠ none := by
  decide

/-- Claim C3 (amended): along every operation sequence from a freshly
constructed manager, `candles_remaining` stays ≥ 0; and provided the
constructed duration is positive and every activate in the sequence has a
positive effective duration, a zero counter implies the reason is cleared.
Activate with a non-positive duration is the sole exception. -/
theorem C3_cooldown_invariant_amended (d : ℤ) (ops : List CdOp) :
    0 ≤ (runOps (CooldownManager.init d) ops).remaining ∧
    (0 < d → (∀ op ∈ ops, posDurationOp d op = true) →
      ((runOps (CooldownManager.init d) ops).remaining = 0 →
        (runOps (CooldownManager.init d) ops).reason = none)) := by
  refine ⟨runOps_remaining_nonneg ops _ le_rfl, fun hd hops => ?_⟩
  exact runOps_zero_reason d ops _ hops rfl (fun _ => rfl)

/-- Claim C3 (amended) witness: concrete run with the default positive
duration reaching zero with the reason cleared. -/
theorem C3_cooldown_invariant_amended_witness :
    0 ≤ (runOps (CooldownManager.init 3)
      [CdOp.activate CooldownReason.EXIT none, CdOp.advance, CdOp.advance,
        CdOp.advance]).remaining ∧
    (runOps (CooldownManager.init 3)
      [CdOp.activate CooldownReason.EXIT none, CdOp.advance, CdOp.advance,
        CdOp.advance]).reason = none := by
  refine ⟨(C3_cooldown_invariant_amended 3 _).1, ?_⟩
  exact (C3_cooldown_invariant_amended 3
    [CdOp.activate CooldownReason.EXIT none, CdOp.advance, CdOp.advance,
      CdOp.advance]).2 (by decide) (by decide) (by decide)

/-- Claim C8: after `activate` with duration n ≥ 1, the counter reads n;
every intermediate state after k < n advances still blocks entries, after
exactly n advances the manager is inactive with the reason cleared and
entries allowed; `activate` sets the counter to max(0, duration), `reset`
force-clears, and `can_enter` holds exactly when the counter is ≤ 0. -/
theorem C8_cooldown_countdown (n k : ℕ) (s : CooldownManager) (hn : 1 ≤ n) :
    (s.activate CooldownReason.EXIT (some (n : ℤ))).remaining = (n : ℤ) ∧
    (k < n →
      (CooldownManager.advance^[k]
        (s.activate CooldownReason.EXIT (some (n : ℤ)))).can_enter = false) ∧
    (CooldownManager.advance^[n]
      (s.activate CooldownReason.EXIT (some (n : ℤ)))).remaining = 0 ∧
    (CooldownManager.advance^[n]
      (s.activate CooldownReason.EXIT (some (n : ℤ)))).reason = none ∧
    (CooldownManager.advance^[n]
      (s.activate CooldownReason.EXIT (some (n : ℤ)))).can_enter = true ∧
    (∀ m : ℤ, (s.activate CooldownReason.EXIT (some m)).remaining = max 0 m) ∧
    s.reset.remaining = 0 ∧ s.reset.reason = none ∧
    (s.can_enter = true ↔ s.remaining ≤ 0) := by
  have hrem : (s.activate CooldownReason.EXIT (some (n : ℤ))).remaining = (n : ℤ) := by
    simp only [CooldownManager.activate, Option.getD_some]
    exact max_eq_right (by positivity)
  have hzero : CooldownManager.advance^[n]
      (s.activate CooldownReason.EXIT (some (n : ℤ))) =
      ⟨s.cooldown_duration, 0, none⟩ :=
    iterate_advance_to_zero n hn _ hrem
  refine ⟨hrem, fun hk => ?_, ?_, ?_, ?_, fun m => ?_, rfl, rfl, ?_⟩
  · rw [iterate_advance_of_lt k _ (by rw [hrem]; exact_mod_cast hk)]
    simp only [CooldownManager.can_enter, hrem, decide_eq_false_iff_not, not_le]
    omega
  · rw [hzero]
  · rw [hzero]
  · rw [hzero]; rfl
  · simp [CooldownManager.activate]
  · simp [CooldownManager.can_enter]

/-- Claim C8 witness: duration 3 from a fresh manager, checked after 1 and
after 3 advances. -/
theorem C8_cooldown_countdown_witness :
    (CooldownManager.advance^[1]
      ((CooldownManager.init 3).activate CooldownReason.EXIT
        (some ((3 : ℕ) : ℤ)))).can_enter = false ∧
    (CooldownManager.advance^[3]
      ((CooldownManager.init 3).activate CooldownReason.EXIT
        (some ((3 : ℕ) : ℤ)))).reason = none := by
  refine ⟨(C8_cooldown_countdown 3 1 (CooldownManager.init 3)
    (by norm_num)).2.1 (by norm_num), ?_⟩
  exact (C8_cooldown_countdown 3 1 (CooldownManager.init 3)
    (by norm_num)).2.2.2.1

/-! ## Confidence lemmas -/

theorem stStrengthScore_mem (d : ℚ) :
    stStrengthScore d = 0 ∨ stStrengthScore d = 30 := by
  unfold stStrengthScore
  split_ifs <;> simp

theorem bodyStrengthScore_mem (o hi lo c : ℚ) :
    bodyStrengthScore o hi lo c = 0 ∨ bodyStrengthScore o hi lo c = 20 := by
  unfold bodyStrengthScore
  split_ifs <;> simp

theorem macdMomentumScore_mem (m : Option ℚ) :
    macdMomentumScore m = 0 ∨ macdMomentumScore m = 15 ∨
    macdMomentumScore m = 20 ∨ macdMomentumScore m = 25 ∨
    macdMomentumScore m = 30 := by
  cases m with
  | none => simp [macdMomentumScore]
  | some v =>
    simp only [macdMomentumScore]
    split_ifs <;> simp

theorem volExpansionScore_mem (r : ℚ) (rr : Option (List ℚ)) :
    volExpansionScore r rr = 0 ∨ volExpansionScore r rr = 20 := by
  unfold volExpansionScore
  split_ifs <;> simp

/-- Claim C4: the entry-confidence total equals the plain sum of the four
sub-scores (the clamp to [0,100] never alters it), lies in [0,100], and
each sub-score takes only a value from its fixed set. -/
theorem C4_entry_confidence_breakdown (sd o hi lo cl : ℚ) (m : Option ℚ)
    (rr : Option (List ℚ)) :
    (calculate_entry_confidence sd o hi lo cl m rr).total =
      (calculate_entry_confidence sd o hi lo cl m rr).st_strength +
      (calculate_entry_confidence sd o hi lo cl m rr).candle_body_strength +
      (calculate_entry_confidence sd o hi lo cl m rr).macd_momentum +
      (calculate_entry_confidence sd o hi lo cl m rr).volatility_expansion ∧
    0 ≤ (calculate_entry_confidence sd o hi lo cl m rr).total ∧
    (calculate_entry_confidence sd o hi lo cl m rr).total ≤ 100 ∧
    ((calculate_entry_confidence sd o hi lo cl m rr).st_strength = 0 ∨
      (calculate_entry_confidence sd o hi lo cl m rr).st_strength = 30) ∧
    ((calculate_entry_confidence sd o hi lo cl m rr).candle_body_strength = 0 ∨
      (calculate_entry_confidence sd o hi lo cl m rr).candle_body_strength = 20) ∧
    ((calculate_entry_confidence sd o hi lo cl m rr).macd_momentum = 0 ∨
      (calculate_entry_confidence sd o hi lo cl m rr).macd_momentum = 15 ∨
      (calculate_entry_confidence sd o hi lo cl m rr).macd_momentum = 20 ∨
      (calculate_entry_confidence sd o hi lo cl m rr).macd_momentum = 25 ∨
      (calculate_entry_confidence sd o hi lo cl m rr).macd_momentum = 30) ∧
    ((calculate_entry_confidence sd o hi lo cl m rr).volatility_expansion = 0 ∨
      (calculate_entry_confidence sd o hi lo cl m rr).volatility_expansion = 20) := by
  have ha := stStrengthScore_mem sd
  have hb := bodyStrengthScore_mem o hi lo cl
  have hc := macdMomentumScore_mem m
  have hd := volExpansionScore_mem (hi - lo) rr
  have hsum : 0 ≤ stStrengthScore sd + bodyStrengthScore o hi lo cl +
      macdMomentumScore m + volExpansionScore (hi - lo) rr ∧
      stStrengthScore sd + bodyStrengthScore o hi lo cl +
      macdMomentumScore m + volExpansionScore (hi - lo) rr ≤ 100 := by
    rcases ha with h1 | h1 <;> rcases hb with h2 | h2 <;>
      rcases hc with h3 | h3 | h3 | h3 | h3 <;> rcases hd with h4 | h4 <;>
      rw [h1, h2, h3, h4] <;> norm_num
  have hclamp : max 0 (min 100 (stStrengthScore sd + bodyStrengthScore o hi lo cl +
      macdMomentumScore m + volExpansionScore (hi - lo) rr)) =
      stStrengthScore sd + bodyStrengthScore o hi lo cl +
      macdMomentumScore m + volExpansionScore (hi - lo) rr := by
    rw [min_eq_right hsum.2, max_eq_right hsum.1]
  refine ⟨hclamp, ?_, ?_, ha, hb, hc, hd⟩
  · show 0 ≤ max 0 (min 100 _)
    exact le_max_left _ _
  · show max 0 (min 100 _) ≤ 100
    rw [hclamp]
    exact hsum.2

/-- Claim C5: the runtime confidence update agrees everywhere with the
spec rendering (the four rules applied independently and cumulatively in
the fixed order, the result clamped to [0,100], and the fired tags joined
by the separator or NO_CHANGE); in particular the scenario previous=45,
weak body, shrinking MACD, candles_held=11, decay window 10 yields
(20, WEAK_BODY+MACD_SHRINK+TIME_DECAY). -/
theorem C5_runtime_confidence_spec :
    (∀ (p : ℚ) (cb m pm : Option ℚ) (held decay : ℤ),
      calculate_runtime_confidence p cb m pm held decay =
        calculate_runtime_confidenceSpec p cb m pm held decay) ∧
    calculate_runtime_confidence 45 (some 20) (some 1) (some 2) 11 10 =
      (20, "WEAK_BODY+MACD_SHRINK+TIME_DECAY") := by
  constructor
  · intro p cb m pm held decay
    cases hb : bodyWeak cb <;> cases hm : macdShrink m pm <;>
      cases ht : timeDecayHit held decay <;> cases hc : continuationStrong cb <;>
      simp [calculate_runtime_confidence, calculate_runtime_confidenceSpec,
        runtimeRules, joinReasons, hb, hm, ht, hc] <;> ring_nf
  · have h1 : bodyWeak (some 20) = true := by norm_num [bodyWeak]
    have h2 : macdShrink (some 1) (some 2) = true := by norm_num [macdShrink]
    have h3 : timeDecayHit 11 10 = true := by norm_num [timeDecayHit]
    have h4 : continuationStrong (some 20) = false := by
      norm_num [continuationStrong]
    simp only [calculate_runtime_confidence, h1, h2, h3, h4, if_true,
      Bool.false_eq_true, if_false, joinReasons, reasonSep, List.append_assoc,
      List.cons_append, List.nil_append, Prod.mk.injEq]
    exact ⟨by norm_num, rfl⟩

/-- Claim C6: whenever the CONTINUATION bonus does not apply (body
percentage absent or below 60), the runtime confidence update does not
increase the confidence (previous confidence taken in [0,100]), and the
returned value always lies in [0,100]. -/
theorem runtime_fst_eq (p : ℚ) (cb m pm : Option ℚ) (held decay : ℤ) :
    (calculate_runtime_confidence p cb m pm held decay).1 =
      max 0 (min 100 (p + runtimeDelta cb m pm held decay)) := by
  cases hb : bodyWeak cb <;> cases hm : macdShrink m pm <;>
    cases ht : timeDecayHit held decay <;> cases hc : continuationStrong cb <;>
    simp [calculate_runtime_confidence, runtimeDelta, hb, hm, ht, hc] <;> ring_nf

theorem runtimeDelta_nonpos (cb m pm : Option ℚ) (held decay : ℤ)
    (hcf : continuationStrong cb = false) :
    runtimeDelta cb m pm held decay ≤ 0 := by
  unfold runtimeDelta
  simp only [hcf, Bool.false_eq_true, if_false]
  split_ifs <;> norm_num

theorem C6_runtime_confidence_monotone (p : ℚ) (cb m pm : Option ℚ)
    (held decay : ℤ) (h0 : 0 ≤ p) (_h1 : p ≤ 100)
    (hnc : cb = none ∨ ∃ b, cb = some b ∧ b < 60) :
    (calculate_runtime_confidence p cb m pm held decay).1 ≤ p ∧
    0 ≤ (calculate_runtime_confidence p cb m pm held decay).1 ∧
    (calculate_runtime_confidence p cb m pm held decay).1 ≤ 100 := by
  have hcf : continuationStrong cb = false := by
    rcases hnc with h | ⟨b, rfl, hb⟩
    · rw [h]; rfl
    · simp only [continuationStrong, decide_eq_false_iff_not, not_le]
      exact hb
  have hδ := runtimeDelta_nonpos cb m pm held decay hcf
  rw [runtime_fst_eq]
  refine ⟨max_le h0 ((min_le_right _ _).trans (by linarith)), le_max_left _ _,
    max_le (by norm_num) (min_le_left _ _)⟩

/-- Claim C6 witness: the scenario previous=45, weak body, shrinking MACD,
candles_held=11, decay window 10 (no continuation) is non-increasing and
in range. -/
theorem C6_runtime_confidence_monotone_witness :
    (calculate_runtime_confidence 45 (some 20) (some 1) (some 2) 11 10).1 ≤ 45 ∧
    0 ≤ (calculate_runtime_confidence 45 (some 20) (some 1) (some 2) 11 10).1 ∧
    (calculate_runtime_confidence 45 (some 20) (some 1) (some 2) 11 10).1 ≤ 100 :=
  C6_runtime_confidence_monotone 45 (some 20) (some 1) (some 2) 11 10
    (by norm_num) (by norm_num) (Or.inr ⟨20, rfl, by norm_num⟩)

/-! ## Market regime lemmas -/

theorem detect_fallback (det : MarketRegimeDetector) (price : Option ℚ)
    (stv : ℚ) (adx : Option ℚ) (h : det.use_adx = false ∨ adx = none) :
    detect det price stv adx =
      ((match stDistancePct price stv with
        | none => MarketRegime.SIDEWAYS
        | some d => if d < det.st_distance_sideways_threshold_pct
            then MarketRegime.SIDEWAYS else MarketRegime.TRENDING),
       ⟨"ST_DISTANCE", adx, det.adx_threshold, stDistancePct price stv,
         det.st_distance_sideways_threshold_pct⟩) := by
  rcases h with h | rfl
  · simp only [detect, h]
  · cases hu : det.use_adx <;> simp only [detect, hu]

/-- Claim C7: `detect` uses the ADX method exactly when the flag is enabled
and an ADX value is supplied (TRENDING iff adx ≥ threshold); in every
other case the distance method runs, classifying TRENDING iff the ST
distance percentage is defined and at least the sideways threshold, and
SIDEWAYS whenever the distance cannot be computed (price absent or ≤ 0);
the constructor defaults are adx_threshold = 20 and distance threshold
0.15. -/
theorem C7_regime_method_selection (det : MarketRegimeDetector)
    (price : Option ℚ) (stv : ℚ) (adx : Option ℚ) :
    (∀ a : ℚ, adx = some a → det.use_adx = true →
      ((detect det price stv adx).1 = MarketRegime.TRENDING ↔
        det.adx_threshold ≤ a) ∧
      (detect det price stv adx).2.method = "ADX") ∧
    (det.use_adx = false ∨ adx = none →
      ((detect det price stv adx).1 = MarketRegime.TRENDING ↔
        ∃ p, price = some p ∧ 0 < p ∧
          det.st_distance_sideways_threshold_pct ≤ |p - stv| / p * 100) ∧
      (detect det price stv adx).2.method = "ST_DISTANCE") ∧
    ((det.use_adx = false ∨ adx = none) →
      (price = none ∨ ∃ p, price = some p ∧ p ≤ 0) →
      (detect det price stv adx).1 = MarketRegime.SIDEWAYS) ∧
    MarketRegimeDetector.default.adx_threshold = 20 ∧
    MarketRegimeDetector.default.st_distance_sideways_threshold_pct = 3 / 20 := by
  refine ⟨?_, ?_, ?_, rfl, rfl⟩
  · rintro a rfl hflag
    simp only [detect, hflag]
    refine ⟨?_, trivial⟩
    by_cases h : a < det.adx_threshold
    · rw [if_pos h]
      exact iff_of_false (by simp) (by intro hh; linarith)
    · rw [if_neg h]
      exact iff_of_true rfl (le_of_not_lt h)
  · intro h2
    rw [detect_fallback det price stv adx h2]
    refine ⟨?_, rfl⟩
    rcases price with _ | p
    · simp [stDistancePct]
    · simp only [stDistancePct]
      by_cases hp : 0 < p
      · rw [if_pos hp]
        show (if |p - stv| / p * 100 < det.st_distance_sideways_threshold_pct
          then MarketRegime.SIDEWAYS else MarketRegime.TRENDING) =
            MarketRegime.TRENDING ↔ _
        by_cases hd : |p - stv| / p * 100 < det.st_distance_sideways_threshold_pct
        · rw [if_pos hd]
          refine iff_of_false (by simp) (fun hcon => ?_)
          obtain ⟨q, hq, hq0, hthr⟩ := hcon
          cases hq
          linarith
        · rw [if_neg hd]
          exact iff_of_true rfl ⟨p, rfl, hp, le_of_not_lt hd⟩
      · rw [if_neg hp]
        refine iff_of_false (by simp) (fun hcon => ?_)
        obtain ⟨q, hq, hq0, _⟩ := hcon
        cases hq
        exact hp hq0
  · intro h2 hbad
    rw [detect_fallback det price stv adx h2]
    rcases hbad with rfl | ⟨p, rfl, hp⟩
    · rfl
    · simp only [stDistancePct]
      rw [if_neg (by linarith)]

/-- Claim C7 witness: ADX method fires with the flag on and adx=25 ≥ 20;
the distance fallback classifies price=100 vs SuperTrend 99.8 (0.2% ≥
0.15%) as TRENDING; a missing price is conservatively SIDEWAYS. -/
theorem C7_regime_method_selection_witness :
    (detect ⟨true, 20, 3 / 20⟩ (some 100) (999 / 10) (some 25)).1 =
      MarketRegime.TRENDING ∧
    (detect MarketRegimeDetector.default (some 100) (998 / 10) none).1 =
      MarketRegime.TRENDING ∧
    (detect MarketRegimeDetector.default none 100 none).1 =
      MarketRegime.SIDEWAYS := by
  refine ⟨?_, ?_, ?_⟩
  · exact ((C7_regime_method_selection ⟨true, 20, 3 / 20⟩ (some 100) (999 / 10)
      (some 25)).1 25 rfl rfl).1.mpr (by norm_num)
  · refine ((C7_regime_method_selection MarketRegimeDetector.default (some 100)
      (998 / 10) none).2.1 (Or.inl rfl)).1.mpr ⟨100, rfl, by norm_num, ?_⟩
    have habs : |(100 : ℚ) - 998 / 10| = 1 / 5 := by
      rw [abs_of_pos] <;> norm_num
    rw [habs]
    norm_num [MarketRegimeDetector.default, DEFAULT_ST_DISTANCE_SIDEWAYS_THRESHOLD_PCT]
  · exact (C7_regime_method_selection MarketRegimeDetector.default none 100
      none).2.2.1 (Or.inl rfl) (Or.inl rfl)

/-! ## Entry logic -/

/-- Claim C1: `check_entry` agrees everywhere with the ordered seven-gate
specification: should_enter holds iff all seven gates pass, any failure
reports the first failing gate's reason with should_enter false, and a
full pass reports the flip's direction with reason OK. -/
theorem C1_check_entry_matches_gate_spec (tr : Bool) (st : ℤ) (prev : Option ℤ)
    (stv cl : ℚ) (m : Option ℚ) (conf minConf : ℚ) :
    check_entry tr st prev stv cl m conf minConf =
      check_entrySpec tr st prev stv cl m conf minConf := by
  cases tr with
  | false => rfl
  | true =>
    cases prev with
    | none => rfl
    | some p =>
      by_cases hflip : st = p
      · simp [check_entry, check_entrySpec, List.find?, hflip]
      · rcases hd : flipDirection p st with _ | d
        · simp [check_entry, check_entrySpec, List.find?, hflip, hd]
        · cases d with
          | BULLISH =>
            by_cases hpr : stv < cl
            · cases m with
              | none =>
                simp [check_entry, check_entrySpec, entryTail, List.find?,
                  hflip, hd, hpr, priceConfirmed, macdGate]
              | some v =>
                by_cases hm : |v| < MACD_HIST_MIN
                · simp [check_entry, check_entrySpec, entryTail, List.find?,
                    hflip, hd, hpr, hm, priceConfirmed, macdGate,
                    not_le.mpr hm]
                · by_cases hc : conf < minConf
                  · simp [check_entry, check_entrySpec, entryTail, List.find?,
                      hflip, hd, hpr, hm, hc, priceConfirmed, macdGate,
                      not_lt.mp hm, not_le.mpr hc]
                  · simp [check_entry, check_entrySpec, entryTail, List.find?,
                      hflip, hd, hpr, hm, hc, priceConfirmed, macdGate,
                      not_lt.mp hm, not_lt.mp hc]
            · simp [check_entry, check_entrySpec, List.find?, hflip, hd, hpr,
                priceConfirmed, priceFailReason]
          | BEARISH =>
            by_cases hpr : cl < stv
            · cases m with
              | none =>
                simp [check_entry, check_entrySpec, entryTail, List.find?,
                  hflip, hd, hpr, priceConfirmed, macdGate]
              | some v =>
                by_cases hm : |v| < MACD_HIST_MIN
                · simp [check_entry, check_entrySpec, entryTail, List.find?,
                    hflip, hd, hpr, hm, priceConfirmed, macdGate,
                    not_le.mpr hm]
                · by_cases hc : conf < minConf
                  · simp [check_entry, check_entrySpec, entryTail, List.find?,
                      hflip, hd, hpr, hm, hc, priceConfirmed, macdGate,
                      not_lt.mp hm, not_le.mpr hc]
                  · simp [check_entry, check_entrySpec, entryTail, List.find?,
                      hflip, hd, hpr, hm, hc, priceConfirmed, macdGate,
                      not_lt.mp hm, not_lt.mp hc]
            · simp [check_entry, check_entrySpec, List.find?, hflip, hd, hpr,
                priceConfirmed, priceFailReason]

/-! ## Exit logic -/

/-- Claim C2: with an open position, `check_exit` agrees everywhere with
first-match evaluation of the five prioritised conditions; in particular
when both stop-losses would trigger (hard_sl=100, trailing_sl=110, ltp=95)
the result is SL_HIT, not TSL_HIT. -/
theorem C2_check_exit_priority :
    (∀ (op : Bool) (ltp hsl tsl : Option ℚ) (conf minConf : ℚ)
      (st prev : Option ℤ) (pt : String) (t : TimeHM) (bypass : Bool),
      check_exit op ltp hsl tsl conf minConf st prev pt t bypass =
        check_exitSpec op ltp hsl tsl conf minConf st prev pt t bypass) ∧
    check_exit true (some 95) (some 100) (some 110) 80 40 none none
      "CE" ⟨9, 30⟩ false = ⟨true, some ExitReason.SL_HIT⟩ := by
  constructor
  · intro op ltp hsl tsl conf minConf st prev pt t bypass
    cases op with
    | false => rfl
    | true =>
      cases h1 : slTriggered (ltpOf ltp) hsl <;>
        cases h2 : slTriggered (ltpOf ltp) tsl <;>
        by_cases h3 : conf ≤ minConf <;>
        cases h4 : stReversalAgainst pt st prev <;>
        cases h5 : eodHit t bypass <;>
        simp [check_exit, check_exitSpec, exitConds, List.find?, h1, h2, h3,
          h4, h5]
  · have h1 : slTriggered (ltpOf (some 95)) (some 100) = true := by
      simp [slTriggered, ltpOf]
      norm_num
    simp [check_exit, h1]

theorem stReversalAgainst_eq_true_iff (pt : String) (st prev : Option ℤ) :
    stReversalAgainst pt st prev = true ↔
      (upperAscii pt = "CE" ∧ prev = some 1 ∧ st = some (-1)) ∨
      (upperAscii pt = "PE" ∧ prev = some (-1) ∧ st = some 1) := by
  cases st with
  | none => simp [stReversalAgainst]
  | some s =>
    cases prev with
    | none => simp [stReversalAgainst]
    | some p =>
      simp only [stReversalAgainst]
      by_cases hsp : s ≠ p
      · rw [if_pos hsp]
        simp only [Bool.or_eq_true, Bool.and_eq_true, decide_eq_true_eq,
          Option.some.injEq]
        constructor <;> rintro (⟨ha, hb, hc⟩ | ⟨ha, hb, hc⟩) <;>
          simp_all
      · rw [if_neg hsp]
        push_neg at hsp
        subst hsp
        simp only [Bool.false_eq_true, false_iff]
        rintro (⟨ha, hb, hc⟩ | ⟨ha, hb, hc⟩) <;> simp_all

/-- Claim C9: the ST_REVERSAL exit fires only against the held position:
whenever `check_exit` reports ST_REVERSAL the flip opposes the position;
with no higher-priority condition met, a CE position with flip 1 → -1 (or
a PE position with flip -1 → 1) yields exactly ST_REVERSAL; and a CE
position with flip -1 → 1 never yields ST_REVERSAL. -/
theorem C9_st_reversal_opposing (ltp hsl tsl : Option ℚ) (conf minConf : ℚ)
    (st prev : Option ℤ) (pt : String) (t : TimeHM) (bypass : Bool) :
    ((check_exit true ltp hsl tsl conf minConf st prev pt t bypass).reason =
        some ExitReason.ST_REVERSAL →
      (upperAscii pt = "CE" ∧ prev = some 1 ∧ st = some (-1)) ∨
      (upperAscii pt = "PE" ∧ prev = some (-1) ∧ st = some 1)) ∧
    (slTriggered (ltpOf ltp) hsl = false → slTriggered (ltpOf ltp) tsl = false →
      minConf < conf → upperAscii pt = "CE" → prev = some 1 → st = some (-1) →
      check_exit true ltp hsl tsl conf minConf st prev pt t bypass =
        ⟨true, some ExitReason.ST_REVERSAL⟩) ∧
    (slTriggered (ltpOf ltp) hsl = false → slTriggered (ltpOf ltp) tsl = false →
      minConf < conf → upperAscii pt = "PE" → prev = some (-1) → st = some 1 →
      check_exit true ltp hsl tsl conf minConf st prev pt t bypass =
        ⟨true, some ExitReason.ST_REVERSAL⟩) ∧
    (upperAscii pt = "CE" → prev = some (-1) → st = some 1 →
      (check_exit true ltp hsl tsl conf minConf st prev pt t bypass).reason ≠
        some ExitReason.ST_REVERSAL) := by
  refine ⟨?_, ?_, ?_, ?_⟩
  · cases h1 : slTriggered (ltpOf ltp) hsl <;>
      cases h2 : slTriggered (ltpOf ltp) tsl <;>
      by_cases h3 : conf ≤ minConf <;>
      cases h4 : stReversalAgainst pt st prev <;>
      cases h5 : eodHit t bypass <;>
      simp [check_exit, h1, h2, h3, h4, h5] <;>
      exact (stReversalAgainst_eq_true_iff pt st prev).mp h4
  · intro h1 h2 h3 hce hprev hst
    have h4 : stReversalAgainst pt st prev = true :=
      (stReversalAgainst_eq_true_iff pt st prev).mpr (Or.inl ⟨hce, hprev, hst⟩)
    simp [check_exit, h1, h2, not_le.mpr h3, h4]
  · intro h1 h2 h3 hpe hprev hst
    have h4 : stReversalAgainst pt st prev = true :=
      (stReversalAgainst_eq_true_iff pt st prev).mpr (Or.inr ⟨hpe, hprev, hst⟩)
    simp [check_exit, h1, h2, not_le.mpr h3, h4]
  · intro hce hprev hst
    have h4 : stReversalAgainst pt st prev = false := by
      rw [Bool.eq_false_iff]
      intro hcon
      rcases (stReversalAgainst_eq_true_iff pt st prev).mp hcon with
        ⟨_, hb, _⟩ | ⟨ha, _, _⟩
      · rw [hprev] at hb
        simp at hb
      · rw [hce] at ha
        simp at ha
    cases h1 : slTriggered (ltpOf ltp) hsl <;>
      cases h2 : slTriggered (ltpOf ltp) tsl <;>
      by_cases h3 : conf ≤ minConf <;>
      cases h5 : eodHit t bypass <;>
      simp [check_exit, h1, h2, h3, h4, h5]

/-- Claim C9 witness: concrete CE position, flip 1 → -1, no higher-priority
condition met, exits with ST_REVERSAL. -/
theorem C9_st_reversal_opposing_witness :
    check_exit true (some 50) none none 80 40 (some (-1)) (some 1) "CE"
      ⟨9, 30⟩ false = ⟨true, some ExitReason.ST_REVERSAL⟩ :=
  (C9_st_reversal_opposing (some 50) none none 80 40 (some (-1)) (some 1)
    "CE" ⟨9, 30⟩ false).2.1 rfl rfl (by norm_num) (by decide) rfl rfl

theorem slTriggered_of_nonpos (ltp : ℚ) (sl : Option ℚ) (h : ltp ≤ 0) :
    slTriggered ltp sl = false := by
  cases sl with
  | none => rfl
  | some s => simp [slTriggered, not_lt.mpr h]

theorem check_exitLower_no_sl (conf minConf : ℚ) (st prev : Option ℤ)
    (pt : String) (t : TimeHM) (bypass : Bool) :
    (check_exitLower conf minConf st prev pt t bypass).reason ≠
      some ExitReason.SL_HIT ∧
    (check_exitLower conf minConf st prev pt t bypass).reason ≠
      some ExitReason.TSL_HIT := by
  unfold check_exitLower
  split_ifs <;> simp

/-- Claim C10: with an open position and an absent or non-positive LTP,
both stop-loss rules are skipped — `check_exit` never reports SL_HIT or
TSL_HIT whatever the levels — and the call behaves exactly as first-match
evaluation of the remaining lower-priority conditions (confidence drop,
ST reversal, EOD cutoff), which can still trigger an exit. -/
theorem C10_sl_skipped_when_ltp_unusable (ltp hsl tsl : Option ℚ)
    (conf minConf : ℚ) (st prev : Option ℤ) (pt : String) (t : TimeHM)
    (bypass : Bool) (hltp : ltp = none ∨ ∃ v, ltp = some v ∧ v ≤ 0) :
    check_exit true ltp hsl tsl conf minConf st prev pt t bypass =
      check_exitLower conf minConf st prev pt t bypass ∧
    (check_exit true ltp hsl tsl conf minConf st prev pt t bypass).reason ≠
      some ExitReason.SL_HIT ∧
    (check_exit true ltp hsl tsl conf minConf st prev pt t bypass).reason ≠
      some ExitReason.TSL_HIT := by
  have hz : ltpOf ltp ≤ 0 := by
    rcases hltp with rfl | ⟨v, rfl, hv⟩
    · exact le_refl 0
    · exact hv
  have h1 := slTriggered_of_nonpos (ltpOf ltp) hsl hz
  have h2 := slTriggered_of_nonpos (ltpOf ltp) tsl hz
  have heq : check_exit true ltp hsl tsl conf minConf st prev pt t bypass =
      check_exitLower conf minConf st prev pt t bypass := by
    simp only [check_exit, check_exitLower, h1, h2, Bool.false_eq_true,
      if_false]
    rfl
  rw [heq]
  exact ⟨rfl, check_exitLower_no_sl conf minConf st prev pt t bypass⟩

/-- Claim C10 witness: LTP absent with both stop levels set; the
confidence condition still fires and the stop-loss rules are skipped. -/
theorem C10_sl_skipped_when_ltp_unusable_witness :
    check_exit true none (some 100) (some 110) 30 40 none none "CE"
      ⟨9, 30⟩ false = check_exitLower 30 40 none none "CE" ⟨9, 30⟩ false ∧
    (check_exit true none (some 100) (some 110) 30 40 none none "CE"
      ⟨9, 30⟩ false).reason ≠ some ExitReason.SL_HIT ∧
    (check_exit true none (some 100) (some 110) 30 40 none none "CE"
      ⟨9, 30⟩ false).reason ≠ some ExitReason.TSL_HIT :=
  C10_sl_skipped_when_ltp_unusable none (some 100) (some 110) 30 40 none
    none "CE" ⟨9, 30⟩ false (Or.inl rfl)

end BotV4
